import Mathlib

/-!
Verification development for the persistence core of a meme-library manager
(files src/src-tauri/src/db/mod.rs and src/src-tauri/src/error.rs).

The relational store is embedded shallowly: the database is a record of
lists of rows, each SQL statement of the source becomes a Lean function on
that record, and fallible operations return Except Error.  The expression
compiler build_search_sql lives in a module of the repository that is not
part of the given sources; it is modelled from the specification and every
such definition is marked "Modelled from the spec".
-/

namespace MemeDB

/-- Embedding of rusqlite errors, as far as the core observes them:
query_row on an empty result yields QueryReturnedNoRows; all other engine
failures are opaque. -/
inductive RusqliteError
  | queryReturnedNoRows
  | other (msg : String)
deriving DecidableEq

/-- Embedding of src/src-tauri/src/error.rs: the two top-level error kinds. -/
inductive Error
  | SQLiteError (e : RusqliteError)
  | IOError (msg : String)
deriving DecidableEq

/-- A row of the meme table (schema per the spec's data model and the
columns the source reads and writes). Timestamps are modelled as integers. -/
structure MemeRow where
  id : Int
  content : String
  extra_data : Option String
  summary : String
  desc : Option String
  thumbnail : Option String
  fav : Bool
  trash : Bool
  create_time : Int
  update_time : Int
deriving DecidableEq

/-- A row of the tag table. -/
structure TagRow where
  «namespace» : String
  value : String
  id : Int
deriving DecidableEq

/-- The Meme value returned to callers (struct Meme of the command layer;
its fields are the seven columns the queries of db/mod.rs read). -/
structure Meme where
  id : Int
  content : String
  extra_data : Option String
  summary : String
  desc : Option String
  fav : Bool
  trash : Bool
deriving DecidableEq

/-- The relational store: one record per table, plus the version-table
bookkeeping the migration code manipulates and the rowid counter backing
last_insert_rowid for the tag table. -/
structure DB where
  table_version_exists : Bool
  version_row : Option Nat
  schema_created : Bool
  memes : List MemeRow
  tags : List TagRow
  meme_tag : List (Int × Int)
  next_tag_rowid : Int
deriving DecidableEq

/-- static DATABASE_VERSION: u32 = 1 (db/mod.rs line 16). -/
def DATABASE_VERSION : Nat := 1

/-- Modelled from the spec: create_tableversion.sql (an include_str script
absent from the given sources) creates the version table if it does not
exist and leaves existing rows untouched. -/
def createTableversionScript (db : DB) : DB :=
  { db with table_version_exists := true }

/-- Modelled from the spec: create_database.sql (absent from the given
sources) applies the full "create schema" script. -/
def createDatabaseScript (db : DB) : DB :=
  { db with schema_created := true }

/-- Modelled from the spec: upgrade_0_1.sql (absent from the given sources)
is the incremental upgrade script from schema version 0 to 1. -/
def upgrade01Script (db : DB) : DB :=
  { db with schema_created := true }

/-- Embedding of handle_version (db/mod.rs lines 20-49): run the
create-tableversion script, read the version row; on an old database apply
the upgrade scripts in order, on a fresh database insert
version_code = DATABASE_VERSION and run the full schema script. -/
def handle_version (db : DB) : Except Error DB :=
  let db1 := createTableversionScript db
  match db1.version_row with
  | some version =>
      if version < DATABASE_VERSION then
        if version < 1 then Except.ok (upgrade01Script db1) else Except.ok db1
      else
        Except.ok db1
  | none =>
      let db2 := { db1 with version_row := some DATABASE_VERSION }
      Except.ok (createDatabaseScript db2)

/-- Embedding of query_tag_id (db/mod.rs lines 361-370): SELECT id FROM tag
WHERE namespace = ?1 AND value = ?2, read optionally. -/
def query_tag_id (db : DB) (nsp value : String) : Except Error (Option Int) :=
  Except.ok ((db.tags.find? fun t => t.namespace == nsp && t.value == value).map (·.id))

/-- Embedding of query_or_insert_tag (db/mod.rs lines 63-75): look the tag
up; on a miss INSERT INTO tag(namespace, value) and return
last_insert_rowid. Returns the tag id and the updated store. -/
def query_or_insert_tag (db : DB) (nsp value : String) : Except Error (Int × DB) :=
  match query_tag_id db nsp value with
  | Except.error e => Except.error e
  | Except.ok (some id) => Except.ok (id, db)
  | Except.ok none =>
      let id := db.next_tag_rowid
      Except.ok (id, { db with
        tags := db.tags ++ [⟨nsp, value, id⟩],
        next_tag_rowid := id + 1 })

/-- Embedding of link_tag_meme (db/mod.rs lines 79-85): INSERT OR IGNORE
INTO meme_tag(tag_id, meme_id). -/
def link_tag_meme (db : DB) (tag_id meme_id : Int) : Except Error DB :=
  if (tag_id, meme_id) ∈ db.meme_tag then Except.ok db
  else Except.ok { db with meme_tag := db.meme_tag ++ [(tag_id, meme_id)] }

/-- Embedding of unlink_tag_meme (db/mod.rs lines 87-108): DELETE the edge;
when remove_unused_tag is set, count the tag's remaining edges and delete
the tag row when the count is zero. -/
def unlink_tag_meme (db : DB) (tag_id meme_id : Int) (remove_unused_tag : Bool) :
    Except Error DB :=
  let db1 := { db with
    meme_tag := db.meme_tag.filter fun e => !(e.1 == tag_id && e.2 == meme_id) }
  if remove_unused_tag then
    let num := (db1.meme_tag.filter fun e => e.1 == tag_id).length
    if num == 0 then
      Except.ok { db1 with tags := db1.tags.filter fun t => !(t.id == tag_id) }
    else
      Except.ok db1
  else
    Except.ok db1

/-- Embedding of update_meme_edit_time (db/mod.rs lines 125-131): UPDATE
meme SET update_time = CURRENT_TIMESTAMP WHERE id = ?1; the clock value at
the call is the explicit argument now. -/
def update_meme_edit_time (db : DB) (now : Int) (id : Int) : Except Error DB :=
  Except.ok { db with memes := db.memes.map fun m =>
    if m.id == id then { m with update_time := now } else m }

/-- Embedding of update_meme (db/mod.rs lines 133-160): four sequential
conditional UPDATE statements, one per present Option argument, each
touching exactly one column of the row WHERE id = ?1. -/
def update_meme (db : DB) (id : Int)
    (extra_data summary description thumbnail : Option String) : Except Error DB :=
  let db := match extra_data with
    | some v => { db with memes := db.memes.map fun m =>
        if m.id == id then { m with extra_data := some v } else m }
    | none => db
  let db := match summary with
    | some v => { db with memes := db.memes.map fun m =>
        if m.id == id then { m with summary := v } else m }
    | none => db
  let db := match description with
    | some v => { db with memes := db.memes.map fun m =>
        if m.id == id then { m with desc := some v } else m }
    | none => db
  let db := match thumbnail with
    | some v => { db with memes := db.memes.map fun m =>
        if m.id == id then { m with thumbnail := some v } else m }
    | none => db
  Except.ok db

/-- Projection of a stored row to the seven returned columns. -/
def MemeRow.toMeme (m : MemeRow) : Meme :=
  ⟨m.id, m.content, m.extra_data, m.summary, m.desc, m.fav, m.trash⟩

/-- Embedding of query_meme_by_id (db/mod.rs lines 162-179): query_row over
SELECT ... WHERE id = ?1; an empty result is the engine's
QueryReturnedNoRows error, surfaced through the ? operator. -/
def query_meme_by_id (db : DB) (id : Int) : Except Error Meme :=
  match db.memes.find? fun m => m.id == id with
  | some m => Except.ok m.toMeme
  | none => Except.error (Error.SQLiteError RusqliteError.queryReturnedNoRows)

/-- Embedding of update_fav_meme_by_id (db/mod.rs lines 181-184): UPDATE
meme SET fav = ?2 WHERE id = ?1. -/
def update_fav_meme_by_id (db : DB) (id : Int) (value : Bool) : Except Error DB :=
  Except.ok { db with memes := db.memes.map fun m =>
    if m.id == id then { m with fav := value } else m }

/-- Embedding of enum SearchMode (db/mod.rs lines 186-190). -/
inductive SearchMode
  | OnlyFav
  | OnlyTrash
  | Normal
deriving DecidableEq

/-- Embedding of SearchMode::where_stmt (db/mod.rs lines 192-200): the
fixed SQL clause of each view mode. -/
def SearchMode.where_stmt : SearchMode → String
  | SearchMode.OnlyTrash => "trash = 1"
  | SearchMode.OnlyFav => "fav = 1 AND trash != 1"
  | SearchMode.Normal => "trash != 1"

/-- Relational semantics of the three where_stmt clauses over a stored row
(fav and trash are 0/1 columns read as booleans). -/
def SearchMode.whereClause : SearchMode → MemeRow → Bool
  | SearchMode.OnlyTrash, m => m.trash
  | SearchMode.OnlyFav, m => m.fav && !m.trash
  | SearchMode.Normal, m => !m.trash

/-- Modelled from the spec: the term forms of the search-expression grammar
of build_search_sql (module src/search, absent from the given sources):
exact tag, namespace-only tag, free-text term, and a negated term. -/
inductive SearchTerm
  | tagExact (nsp value : String)
  | tagNamespace (nsp : String)
  | text (value : String)
  | neg (t : SearchTerm)
deriving DecidableEq

/-- The error a malformed search expression surfaces: a distinguished
sub-case of the storage error kind, raised before any SQL reaches the
engine. -/
def malformedExpr : Error :=
  Error.SQLiteError (RusqliteError.other "malformed search expression")

/-- Split a character list at every occurrence of the separator; always
returns at least one (possibly empty) part. -/
def splitOnChar (c : Char) : List Char → List (List Char)
  | [] => [[]]
  | x :: xs =>
      match splitOnChar c xs with
      | [] => [[x]]
      | y :: ys => if x = c then [] :: y :: ys else (x :: y) :: ys

/-- Re-join character-list parts with the separator between them. -/
def joinWithChar (c : Char) : List (List Char) → List Char
  | [] => []
  | [p] => p
  | p :: ps => p ++ c :: joinWithChar c ps

/-- Modelled from the spec: parse one non-negated term. A token containing
a colon is a tag term split at the first colon; an empty namespace part is
malformed; an empty value part means any value under the namespace; a
colon-free token is a free-text term. -/
def parsePositive (tok : List Char) : Except Error SearchTerm :=
  match splitOnChar ':' tok with
  | [] => Except.error malformedExpr
  | [v] => Except.ok (SearchTerm.text (String.mk v))
  | nsp :: rest =>
      if nsp = [] then Except.error malformedExpr
      else
        let v := joinWithChar ':' rest
        if v = [] then Except.ok (SearchTerm.tagNamespace (String.mk nsp))
        else Except.ok (SearchTerm.tagExact (String.mk nsp) (String.mk v))

/-- Modelled from the spec: a leading minus negates the term it prefixes. -/
def parseTerm (tok : List Char) : Except Error SearchTerm :=
  match tok with
  | '-' :: rest =>
      match parsePositive rest with
      | Except.error e => Except.error e
      | Except.ok t => Except.ok (SearchTerm.neg t)
  | _ => parsePositive tok

/-- Modelled from the spec: build_search_sql splits the expression on
whitespace into terms and compiles each; a malformed term fails the whole
compilation. The result is the compiled predicate, as a term list combined
with AND. -/
def build_search_terms (stmt : String) : Except Error (List SearchTerm) :=
  ((splitOnChar ' ' stmt.toList).filter fun t => t ≠ []).mapM parseTerm

/-- Substring test on strings, the semantics of a LIKE pattern enclosed in
percent signs. -/
def strContains (hay needle : String) : Bool :=
  decide (needle.toList <:+: hay.toList)

/-- Relational semantics of one compiled term against a stored row: tag
terms are existence checks against the tag/edge join scoped to the row's
id, text terms are substring tests on summary and description, negation
inverts. -/
def evalTerm (db : DB) (m : MemeRow) : SearchTerm → Bool
  | SearchTerm.tagExact nsp value =>
      db.tags.any fun t => t.namespace == nsp && t.value == value &&
        db.meme_tag.any fun e => e.1 == t.id && e.2 == m.id
  | SearchTerm.tagNamespace nsp =>
      db.tags.any fun t => t.namespace == nsp &&
        db.meme_tag.any fun e => e.1 == t.id && e.2 == m.id
  | SearchTerm.text value =>
      strContains m.summary value ||
        (match m.desc with
         | some d => strContains d value
         | none => false)
  | SearchTerm.neg t => !evalTerm db m t

/-- The ORDER BY update_time DESC relation on stored rows. -/
def updateTimeGe (a b : MemeRow) : Prop := b.update_time ≤ a.update_time

instance : DecidableRel updateTimeGe := fun a b => Int.decLe b.update_time a.update_time

instance : IsTotal MemeRow updateTimeGe :=
  ⟨fun a b => le_total b.update_time a.update_time⟩

instance : IsTrans MemeRow updateTimeGe :=
  ⟨fun _ _ _ h1 h2 => le_trans h2 h1⟩

/-- Two's-complement wrap into the i32 range: the source computes
page * 30 on i32, which wraps on overflow in release builds (debug builds
panic there); the wrapped value is what reaches the OFFSET clause. -/
def wrap32 (n : Int) : Int := (n + 2 ^ 31) % 2 ^ 32 - 2 ^ 31

/-- Embedding of search_meme_by_stmt (db/mod.rs lines 245-274): compile the
expression (propagating its failure), AND the compiled predicate with the
mode's fixed clause, order by update_time descending, and window with
LIMIT 30 OFFSET page*30, the product taken on i32 so it wraps for large
pages (the engine treats a negative offset as zero). -/
def search_meme_by_stmt (db : DB) (stmt : String) (page : Int) (mode : SearchMode) :
    Except Error (List Meme) :=
  match build_search_terms stmt with
  | Except.error e => Except.error e
  | Except.ok terms =>
      let rows := db.memes.filter fun m =>
        terms.all (evalTerm db m) && mode.whereClause m
      let ordered := List.insertionSort updateTimeGe rows
      Except.ok (((ordered.drop (wrap32 (page * 30)).toNat).take 30).map MemeRow.toMeme)

/-- A statement as handed to the relational engine: its SQL text and the
list of values bound to its parameters at execution. -/
structure PreparedQuery where
  text : String
  params : List String
deriving DecidableEq

/-- Modelled from the spec: the SQL text build_search_sql produces for one
compiled term. Because the source executes the statement with an empty
binding list, the term's user-controlled strings necessarily travel inside
the text itself. -/
def lowerTerm : SearchTerm → String
  | SearchTerm.tagExact nsp value =>
      "EXISTS (SELECT * FROM meme_tag JOIN tag ON meme_tag.tag_id = tag.id " ++
        "WHERE meme_tag.meme_id = meme.id AND tag.namespace = '" ++ nsp ++
        "' AND tag.value = '" ++ value ++ "')"
  | SearchTerm.tagNamespace nsp =>
      "EXISTS (SELECT * FROM meme_tag JOIN tag ON meme_tag.tag_id = tag.id " ++
        "WHERE meme_tag.meme_id = meme.id AND tag.namespace = '" ++ nsp ++ "')"
  | SearchTerm.text value =>
      "(summary LIKE '%" ++ value ++ "%' OR desc LIKE '%" ++ value ++ "%')"
  | SearchTerm.neg t => "NOT " ++ lowerTerm t

/-- Modelled from the spec: the SQL text returned by build_search_sql, a
SELECT over the meme columns whose WHERE clause chains the compiled terms
with AND, left open for search_meme_by_stmt to append the mode clause. -/
def build_search_sql (stmt : String) : Except Error String :=
  match build_search_terms stmt with
  | Except.error e => Except.error e
  | Except.ok ts =>
      Except.ok ("SELECT id, content, extra_data, summary, desc, fav, trash FROM meme WHERE " ++
        String.join (ts.map fun t => lowerTerm t ++ " AND "))

/-- Embedding of the statement search_meme_by_stmt prepares and executes
(db/mod.rs lines 251-258): the compiled text, the appended mode clause,
ordering and window with the i32 page offset formatted as a literal,
executed via query_map with the empty binding list. -/
def search_prepared (stmt : String) (page : Int) (mode : SearchMode) :
    Except Error PreparedQuery :=
  match build_search_sql stmt with
  | Except.error e => Except.error e
  | Except.ok sql =>
      Except.ok ⟨sql ++ mode.where_stmt ++
        " ORDER BY update_time DESC LIMIT 30 OFFSET " ++ toString (wrap32 (page * 30)) ++ ";", []⟩

/-- The blob store and the surrounding file system: source files by path,
library blobs by digest name, and the set of paths whose removal the
operating system refuses (the failure mode of fs::remove_file). -/
structure FileSys where
  files : List (String × List Nat)
  library : List (String × List Nat)
  undeletable : List String
deriving DecidableEq

/-- Bytes of the file at a path, none when the file does not exist. -/
def FileSys.read (fs : FileSys) (path : String) : Option (List Nat) :=
  (fs.files.find? fun f => f.1 == path).map (·.2)

/-- Blob stored in the library under a digest name. -/
def FileSys.blob (fs : FileSys) (digest : String) : Option (List Nat) :=
  (fs.library.find? fun f => f.1 == digest).map (·.2)

/-- Modelled from the spec: the content digest; SHA-256 itself is replaced
by an injective rendering of the byte list, which preserves the
content-addressing property the spec relies on. -/
def sha256hex (bytes : List Nat) : String :=
  String.mk (joinWithChar '-' (bytes.map fun b => List.replicate b 'x'))

/-- Embedding of add_file_to_library (db/mod.rs lines 372-377): digest the
source file (a missing file is an I/O error), then copy its bytes into the
library under the digest name, overwriting any previous blob of that name. -/
def add_file_to_library (fs : FileSys) (file : String) :
    Except Error (String × FileSys) :=
  match fs.read file with
  | none => Except.error (Error.IOError "No such file or directory")
  | some bytes =>
      let digest := sha256hex bytes
      Except.ok (digest, { fs with
        library := (fs.library.filter fun f => !(f.1 == digest)) ++ [(digest, bytes)] })

/-- Embedding of add_file (db/mod.rs lines 379-386): store the file in the
library, then, when delete_after_add is set, remove the source file; a
refused removal surfaces as an I/O error after the copy already happened. -/
def add_file (fs : FileSys) (file : String) (delete_after_add : Bool) :
    Except Error String × FileSys :=
  match add_file_to_library fs file with
  | Except.error e => (Except.error e, fs)
  | Except.ok (digest, fs1) =>
      if delete_after_add then
        if file ∈ fs1.undeletable then
          (Except.error (Error.IOError "remove failed"), fs1)
        else
          (Except.ok digest, { fs1 with files := fs1.files.filter fun f => !(f.1 == file) })
      else (Except.ok digest, fs1)

instance {ε α : Type} [DecidableEq ε] [DecidableEq α] : DecidableEq (Except ε α) := fun x y =>
  match x, y with
  | Except.ok a, Except.ok b =>
      if h : a = b then isTrue (by rw [h]) else isFalse (by intro hh; cases hh; exact h rfl)
  | Except.error a, Except.error b =>
      if h : a = b then isTrue (by rw [h]) else isFalse (by intro hh; cases hh; exact h rfl)
  | Except.ok _, Except.error _ => isFalse (by intro h; cases h)
  | Except.error _, Except.ok _ => isFalse (by intro h; cases h)

/-! Concrete stores used to instantiate the theorems. -/

/-- A sample stored row: not favorite, not trashed, update_time 5. -/
def sampleRow : MemeRow := ⟨1, "c1", none, "hello", none, none, false, false, 0, 5⟩

/-- A sample stored row: favorite, not trashed, update_time 9. -/
def sampleRow2 : MemeRow := ⟨2, "c2", none, "world", some "d", none, true, false, 0, 9⟩

/-- A sample stored row: trashed, update_time 7. -/
def sampleRow3 : MemeRow := ⟨3, "c3", none, "third", none, none, false, true, 0, 7⟩

/-- A sample store with three memes, one tag and two tag edges. -/
def sampleDB : DB :=
  ⟨true, some 1, true, [sampleRow, sampleRow2, sampleRow3], [⟨"artist", "alice", 1⟩],
    [(1, 1), (1, 2)], 2⟩

/-- A freshly opened store: no version table, no rows. -/
def freshDB : DB := ⟨false, none, false, [], [], [], 1⟩

/-- A file system holding one source file whose removal the OS refuses. -/
def stuckFS : FileSys := ⟨[("src", [1, 2])], [], ["src"]⟩

/-- A store whose single meme was last updated at time 0. -/
def staleDB : DB :=
  ⟨true, some 1, true, [⟨1, "c", none, "old", none, none, false, false, 0, 0⟩], [], [], 1⟩

/-- A store that already contains the tag (a, b). -/
def dupDB : DB := ⟨true, some 1, true, [], [⟨"a", "b", 1⟩], [], 2⟩

/-- Number of tag rows carrying a given (namespace, value) pair. -/
def countTag (db : DB) (nsp value : String) : Nat :=
  (db.tags.filter fun tr => tr.namespace == nsp && tr.value == value).length

/-! Helper lemmas about the row-update maps the UPDATE statements compile to. -/

/-- An UPDATE ... WHERE id = ?1 over rows none of which match is the identity. -/
lemma map_upd_noop (l : List MemeRow) (id : Int) (f : MemeRow → MemeRow)
    (h : ∀ m ∈ l, m.id ≠ id) :
    (l.map fun m => if m.id == id then f m else m) = l := by
  induction l with
  | nil => rfl
  | cons a as ih =>
      have ha : a.id ≠ id := h a (List.mem_cons_self a as)
      simp only [List.map_cons]
      rw [if_neg (by simp [ha]), ih fun m hm => h m (List.mem_cons_of_mem a hm)]

/-- Two successive id-scoped UPDATE maps compose, provided the first does
not change the id column. -/
lemma map_upd_comp (l : List MemeRow) (id : Int) (f g : MemeRow → MemeRow)
    (hf : ∀ m, (f m).id = m.id) :
    ((l.map fun m => if m.id == id then f m else m).map fun m =>
        if m.id == id then g m else m) =
      l.map fun m => if m.id == id then g (f m) else m := by
  rw [List.map_map]
  apply List.map_congr_left
  intro m _
  by_cases h : m.id = id
  · simp [Function.comp, h, hf]
  · simp [Function.comp, h]

/-- An id-scoped UPDATE map leaves every column a projection it does not
write, reading the same value on every row. -/
lemma map_upd_proj {α : Type} (l : List MemeRow) (id : Int) (f : MemeRow → MemeRow)
    (proj : MemeRow → α) (hp : ∀ m, proj (f m) = proj m) :
    (l.map fun m => if m.id == id then f m else m).map proj = l.map proj := by
  rw [List.map_map]
  apply List.map_congr_left
  intro m _
  by_cases h : m.id = id
  · simp [Function.comp, h, hp]
  · simp [Function.comp, h]

/-- A product already inside the i32 range is unchanged by the wrap. -/
lemma wrap32_eq_self (n : Int) (h0 : 0 ≤ n) (h1 : n < 2 ^ 31) : wrap32 n = n := by
  unfold wrap32
  rw [Int.emod_eq_of_lt (by omega) (by omega)]
  omega

/-! Claim theorems. -/

/-- C4: running migration against a fresh store (no version row) leaves the
store with version_code equal to the current schema version and the full
schema created; running migration against a store already at the current
version changes nothing. -/
theorem handle_version_fresh_and_idempotent (db dbc : DB)
    (hfresh : db.version_row = none)
    (hcur : dbc.version_row = some DATABASE_VERSION)
    (hex : dbc.table_version_exists = true) :
    (∃ db1, handle_version db = Except.ok db1 ∧
       db1.version_row = some DATABASE_VERSION ∧ db1.schema_created = true) ∧
    handle_version dbc = Except.ok dbc := by
  constructor
  · refine ⟨createDatabaseScript
      { (createTableversionScript db) with version_row := some DATABASE_VERSION }, ?_, rfl, rfl⟩
    simp [handle_version, createTableversionScript, hfresh]
  · obtain ⟨tve, vr, sc, ms, ts, mt, nt⟩ := dbc
    simp only at hcur hex
    subst hcur hex
    simp [handle_version, createTableversionScript, DATABASE_VERSION]

/-- Witness for C4 at concrete stores: a fresh store and sampleDB, which is
already at the current version. -/
theorem handle_version_fresh_and_idempotent_witness :
    (∃ db1, handle_version freshDB = Except.ok db1 ∧
       db1.version_row = some DATABASE_VERSION ∧ db1.schema_created = true) ∧
    handle_version sampleDB = Except.ok sampleDB :=
  handle_version_fresh_and_idempotent freshDB sampleDB (by decide) (by decide) (by decide)

/-- C5: update_meme overwrites exactly the columns whose Option argument is
present, leaves every other column of the addressed row (content, fav,
trash, timestamps, absent-argument columns) and every other row and table
unchanged, and is a no-op when all arguments are absent. -/
theorem update_meme_sparse (db : DB) (id : Int) (e s d t : Option String) :
    ∃ db1, update_meme db id e s d t = Except.ok db1 ∧
      db1.memes = (db.memes.map fun m =>
        if m.id == id then
          { m with
            extra_data := Option.or e m.extra_data,
            summary := Option.getD s m.summary,
            desc := Option.or d m.desc,
            thumbnail := Option.or t m.thumbnail }
        else m) ∧
      db1.tags = db.tags ∧ db1.meme_tag = db.meme_tag ∧
      db1.table_version_exists = db.table_version_exists ∧
      db1.version_row = db.version_row ∧ db1.schema_created = db.schema_created ∧
      db1.next_tag_rowid = db.next_tag_rowid ∧
      (e = none → s = none → d = none → t = none → db1 = db) := by
  cases e <;> cases s <;> cases d <;> cases t <;>
    refine ⟨_, rfl, ?_, rfl, rfl, rfl, rfl, rfl, rfl, ?_⟩ <;>
    first
      | (intro h1 h2 h3 h4; simp_all)
      | (induction db.memes with
         | nil => rfl
         | cons a as ih =>
             simp only [List.map_cons, List.map_map] at ih ⊢
             rw [← ih]
             by_cases h : a.id = id
             · simp [h, Function.comp]
               all_goals rw [← h]
             · simp [h, Function.comp])

/-- C6 (amended): update_time is set to the clock value only by the
explicit touch operation update_meme_edit_time; update_meme leaves the
update_time column of every row unchanged whatever arguments are present. -/
theorem update_time_touch_only (db : DB) (now id : Int) (e s d t : Option String) :
    (∃ db1, update_meme_edit_time db now id = Except.ok db1 ∧
       db1.memes = (db.memes.map fun m =>
         if m.id == id then { m with update_time := now } else m)) ∧
    (∃ db2, update_meme db id e s d t = Except.ok db2 ∧
       db2.memes.map MemeRow.update_time = db.memes.map MemeRow.update_time) := by
  constructor
  · exact ⟨_, rfl, rfl⟩
  · have h1 : ∀ (l : List MemeRow) (v : String),
        ((l.map fun m => if m.id == id then { m with extra_data := some v } else m).map
          MemeRow.update_time) = l.map MemeRow.update_time :=
      fun l v => map_upd_proj l id _ MemeRow.update_time fun m => rfl
    have h2 : ∀ (l : List MemeRow) (v : String),
        ((l.map fun m => if m.id == id then { m with summary := v } else m).map
          MemeRow.update_time) = l.map MemeRow.update_time :=
      fun l v => map_upd_proj l id _ MemeRow.update_time fun m => rfl
    have h3 : ∀ (l : List MemeRow) (v : String),
        ((l.map fun m => if m.id == id then { m with desc := some v } else m).map
          MemeRow.update_time) = l.map MemeRow.update_time :=
      fun l v => map_upd_proj l id _ MemeRow.update_time fun m => rfl
    have h4 : ∀ (l : List MemeRow) (v : String),
        ((l.map fun m => if m.id == id then { m with thumbnail := some v } else m).map
          MemeRow.update_time) = l.map MemeRow.update_time :=
      fun l v => map_upd_proj l id _ MemeRow.update_time fun m => rfl
    cases e <;> cases s <;> cases d <;> cases t <;>
      (simp only [update_meme]
       refine ⟨_, rfl, ?_⟩
       dsimp only
       all_goals first
         | rfl
         | simp only [h1, h2, h3, h4])

/-- Counterexample to C6 as stated: on staleDB, whose row 1 carries
update_time 0, an update_meme call at clock value 1 with a present summary
argument does not set update_time to the current time. -/
theorem update_meme_sets_time_cex :
    ¬ (∀ now : Int, ∃ db1, update_meme staleDB 1 none (some "new") none none = Except.ok db1 ∧
        ∀ m ∈ db1.memes, m.update_time = now) := by
  intro hcl
  obtain ⟨db1, heq, hall⟩ := hcl 1
  have hval : update_meme staleDB 1 none (some "new") none none =
      Except.ok ⟨true, some 1, true, [⟨1, "c", none, "new", none, none, false, false, 0, 0⟩],
        [], [], 1⟩ := by decide
  rw [hval] at heq
  injection heq with h
  subst h
  have h0 := hall ⟨1, "c", none, "new", none, none, false, false, 0, 0⟩ (by decide)
  exact absurd h0 (by decide)

/-- C10: on an id with no row, the mutating operations update_meme, touch
and set_favorite succeed leaving the store unchanged, while the read
operation reports the missing row as a typed error. -/
theorem missing_id_mutators_succeed (db : DB) (id : Int)
    (h : ∀ m ∈ db.memes, m.id ≠ id) (e s d t : Option String) (now : Int) (v : Bool) :
    update_meme db id e s d t = Except.ok db ∧
    update_meme_edit_time db now id = Except.ok db ∧
    update_fav_meme_by_id db id v = Except.ok db ∧
    query_meme_by_id db id = Except.error (Error.SQLiteError RusqliteError.queryReturnedNoRows) := by
  have hno : ∀ f : MemeRow → MemeRow,
      (db.memes.map fun m => if m.id == id then f m else m) = db.memes :=
    fun f => map_upd_noop db.memes id f h
  have hfind : db.memes.find? (fun m => m.id == id) = none := by
    apply List.find?_eq_none.mpr
    intro m hm
    simp [h m hm]
  refine ⟨?_, ?_, ?_, ?_⟩
  · cases e <;> cases s <;> cases d <;> cases t <;>
      (simp only [update_meme]
       all_goals (try dsimp only)
       all_goals (repeat rw [hno])
       all_goals rfl)
  · simp only [update_meme_edit_time]
    rw [hno]
  · simp only [update_fav_meme_by_id]
    rw [hno]
  · simp [query_meme_by_id, hfind]

/-- Witness for C10 at sampleDB and the absent id 99. -/
theorem missing_id_mutators_succeed_witness :
    update_meme sampleDB 99 none (some "s") none none = Except.ok sampleDB ∧
    update_meme_edit_time sampleDB 42 99 = Except.ok sampleDB ∧
    update_fav_meme_by_id sampleDB 99 true = Except.ok sampleDB ∧
    query_meme_by_id sampleDB 99 =
      Except.error (Error.SQLiteError RusqliteError.queryReturnedNoRows) :=
  missing_id_mutators_succeed sampleDB 99 (by decide) none (some "s") none none 42 true

/-- C7: unlink removes the tag/meme edge; with reclaim_orphan set, if the
tag has no remaining edges its row is deleted; with reclaim_orphan unset
the tag row survives even with zero remaining edges. -/
theorem unlink_tag_meme_spec (db : DB) (tag_id meme_id : Int) (reclaim : Bool) :
    ∃ db1, unlink_tag_meme db tag_id meme_id reclaim = Except.ok db1 ∧
      (tag_id, meme_id) ∉ db1.meme_tag ∧
      (∀ p ∈ db.meme_tag, p ≠ (tag_id, meme_id) → p ∈ db1.meme_tag) ∧
      (reclaim = true → (∀ p ∈ db1.meme_tag, p.1 ≠ tag_id) →
        ∀ tr ∈ db1.tags, tr.id ≠ tag_id) ∧
      (reclaim = false → db1.tags = db.tags) ∧
      db1.memes = db.memes := by
  have hnotmem : (tag_id, meme_id) ∉
      db.meme_tag.filter fun e => !(e.1 == tag_id && e.2 == meme_id) := by
    intro hm
    simp [List.mem_filter] at hm
  have hkeep : ∀ p ∈ db.meme_tag, p ≠ (tag_id, meme_id) →
      p ∈ db.meme_tag.filter fun e => !(e.1 == tag_id && e.2 == meme_id) := by
    intro p hp hne
    apply List.mem_filter.mpr
    refine ⟨hp, ?_⟩
    obtain ⟨p1, p2⟩ := p
    by_cases h1 : p1 = tag_id <;> by_cases h2 : p2 = meme_id <;> simp_all
  cases reclaim
  · refine ⟨_, rfl, hnotmem, hkeep, ?_, fun _ => rfl, rfl⟩
    intro h
    simp at h
  · by_cases hz : (((db.meme_tag.filter fun e => !(e.1 == tag_id && e.2 == meme_id)).filter
        fun e => e.1 == tag_id).length == 0) = true
    · have hval : unlink_tag_meme db tag_id meme_id true = Except.ok
          { db with
            meme_tag := db.meme_tag.filter fun e => !(e.1 == tag_id && e.2 == meme_id),
            tags := db.tags.filter fun t => !(t.id == tag_id) } := by
        simp only [unlink_tag_meme]
        rw [if_pos hz]
        simp
      refine ⟨_, hval, hnotmem, hkeep, ?_, ?_, rfl⟩
      · intro _ _ tr htr
        have := (List.mem_filter.mp htr).2
        simpa using this
      · intro h
        simp at h
    · have hval : unlink_tag_meme db tag_id meme_id true = Except.ok
          { db with
            meme_tag := db.meme_tag.filter fun e => !(e.1 == tag_id && e.2 == meme_id) } := by
        simp only [unlink_tag_meme]
        rw [if_neg hz]
        simp
      refine ⟨_, hval, hnotmem, hkeep, ?_, ?_, rfl⟩
      · intro _ hall
        exfalso
        have hne : ((db.meme_tag.filter fun e => !(e.1 == tag_id && e.2 == meme_id)).filter
            fun e => e.1 == tag_id) ≠ [] := by
          intro hnil
          exact hz (by rw [hnil]; rfl)
        obtain ⟨p, hp⟩ := List.exists_mem_of_ne_nil _ hne
        have hp' := List.mem_filter.mp hp
        exact absurd (by simpa using hp'.2) (hall p hp'.1)
      · intro h
        simp at h

/-- Witness for C7: unlinking the edge (1, 1) of sampleDB with orphan
reclamation requested. -/
theorem unlink_tag_meme_spec_witness :
    ∃ db1, unlink_tag_meme sampleDB 1 1 true = Except.ok db1 ∧
      ((1 : Int), (1 : Int)) ∉ db1.meme_tag ∧
      (∀ p ∈ sampleDB.meme_tag, p ≠ ((1 : Int), (1 : Int)) → p ∈ db1.meme_tag) ∧
      (true = true → (∀ p ∈ db1.meme_tag, p.1 ≠ (1 : Int)) →
        ∀ tr ∈ db1.tags, tr.id ≠ (1 : Int)) ∧
      (true = false → db1.tags = sampleDB.tags) ∧
      db1.memes = sampleDB.memes :=
  unlink_tag_meme_spec sampleDB 1 1 true

/-- C8 (amended): get-or-create returns the same tag id on both of two
successive calls and leaves the store of the first call unchanged on the
second; the tag table gains exactly one row with the pair when it was
absent before the first call, and none when it was already present. -/
theorem query_or_insert_tag_idempotent (db : DB) (nsp value : String) :
    ∃ id1 db1, query_or_insert_tag db nsp value = Except.ok (id1, db1) ∧
      query_or_insert_tag db1 nsp value = Except.ok (id1, db1) ∧
      countTag db1 nsp value =
        (if db.tags.any fun tr => tr.namespace == nsp && tr.value == value then
          countTag db nsp value
        else countTag db nsp value + 1) := by
  cases hf : db.tags.find? fun tr => tr.namespace == nsp && tr.value == value with
  | some tr =>
      have hmem := List.mem_of_find?_eq_some hf
      have hpred := List.find?_some hf
      have hany : (db.tags.any fun tr => tr.namespace == nsp && tr.value == value) = true :=
        List.any_eq_true.mpr ⟨tr, hmem, hpred⟩
      refine ⟨tr.id, db, ?_, ?_, ?_⟩
      · simp [query_or_insert_tag, query_tag_id, hf]
      · simp [query_or_insert_tag, query_tag_id, hf]
      · rw [hany]
        simp
  | none =>
      have hall := List.find?_eq_none.mp hf
      have hany : (db.tags.any fun tr => tr.namespace == nsp && tr.value == value) = false := by
        rw [← Bool.not_eq_true, List.any_eq_true]
        rintro ⟨x, hx, hpx⟩
        exact hall x hx hpx
      refine ⟨db.next_tag_rowid,
        { { db with tags := db.tags ++ [TagRow.mk nsp value db.next_tag_rowid] } with
          next_tag_rowid := db.next_tag_rowid + 1 }, ?_, ?_, ?_⟩
      · simp [query_or_insert_tag, query_tag_id, hf]
      · simp only [query_or_insert_tag, query_tag_id]
        rw [List.find?_append, hf]
        simp
      · rw [hany]
        simp only [countTag, List.filter_append]
        rw [List.filter_eq_nil.mpr hall]
        simp [countTag]

/-- Witness for C8 at sampleDB and the absent pair (artist, bob). -/
theorem query_or_insert_tag_idempotent_witness :
    ∃ id1 db1, query_or_insert_tag sampleDB "artist" "bob" = Except.ok (id1, db1) ∧
      query_or_insert_tag db1 "artist" "bob" = Except.ok (id1, db1) ∧
      countTag db1 "artist" "bob" =
        (if sampleDB.tags.any fun tr => tr.namespace == "artist" && tr.value == "bob" then
          countTag sampleDB "artist" "bob"
        else countTag sampleDB "artist" "bob" + 1) :=
  query_or_insert_tag_idempotent sampleDB "artist" "bob"

/-- Counterexample to C8 as stated: on dupDB, which already holds the tag
(a, b), two get-or-create calls leave the count of (a, b) rows unchanged
rather than increasing it by one. -/
theorem query_or_insert_tag_gains_row_cex :
    ∃ id1 db1 id2 db2,
      query_or_insert_tag dupDB "a" "b" = Except.ok (id1, db1) ∧
      query_or_insert_tag db1 "a" "b" = Except.ok (id2, db2) ∧
      id1 = id2 ∧
      countTag db2 "a" "b" ≠ countTag dupDB "a" "b" + 1 :=
  ⟨1, dupDB, 1, dupDB, by decide, by decide, rfl, by decide⟩

/-- A key filtered out of an association list is no longer found. -/
lemma find?_filter_ne (l : List (String × List Nat)) (k : String) :
    (l.filter fun f => !(f.1 == k)).find? (fun f => f.1 == k) = none := by
  apply List.find?_eq_none.mpr
  intro x hx
  have hk := (List.mem_filter.mp hx).2
  simp at hk
  simp [hk]

/-- After the copy, the blob is found under its digest name. -/
lemma blob_after_store (lib : List (String × List Nat)) (digest : String) (bytes : List Nat) :
    ((lib.filter fun f => !(f.1 == digest)) ++ [(digest, bytes)]).find?
      (fun f => f.1 == digest) = some (digest, bytes) := by
  rw [List.find?_append, find?_filter_ne]
  simp

/-- C9 (amended): add_file either succeeds - blob stored under the digest
of the source bytes, source removed exactly when requested - or reports an
error; on an error the source files are untouched and the store is either
fully unchanged (unreadable source) or holds the already-copied blob
(refused source removal after a completed copy). -/
theorem add_file_atomic_or_reported (fs : FileSys) (file : String) (del : Bool) :
    (∃ digest fs1 bytes,
        add_file fs file del = (Except.ok digest, fs1) ∧
        fs.read file = some bytes ∧ digest = sha256hex bytes ∧
        fs1.blob digest = some bytes ∧
        (del = true → fs1.read file = none) ∧
        (del = false → fs1.files = fs.files)) ∨
    (∃ e fs1,
        add_file fs file del = (Except.error e, fs1) ∧
        fs1.files = fs.files ∧
        (fs1 = fs ∨ ∃ bytes, fs.read file = some bytes ∧
          fs1.blob (sha256hex bytes) = some bytes)) := by
  cases hr : fs.read file with
  | none =>
      right
      refine ⟨Error.IOError "No such file or directory", fs, ?_, rfl, Or.inl rfl⟩
      simp only [add_file, add_file_to_library, hr]
  | some bytes =>
      have hblob : (FileSys.blob
          { fs with library := (fs.library.filter fun f => !(f.1 == sha256hex bytes)) ++
              [(sha256hex bytes, bytes)] } (sha256hex bytes)) = some bytes := by
        simp only [FileSys.blob, blob_after_store]
        rfl
      cases del with
      | false =>
          have heq : add_file fs file false =
              (Except.ok (sha256hex bytes),
                { fs with library := (fs.library.filter fun f => !(f.1 == sha256hex bytes)) ++
                    [(sha256hex bytes, bytes)] }) := by
            simp [add_file, add_file_to_library, hr]
          left
          refine ⟨sha256hex bytes, _, bytes, heq, rfl, rfl, hblob, ?_, ?_⟩
          · intro h
            simp at h
          · intro _
            rfl
      | true =>
          by_cases hu : file ∈ fs.undeletable
          · have heq : add_file fs file true =
                (Except.error (Error.IOError "remove failed"),
                  { fs with library := (fs.library.filter fun f => !(f.1 == sha256hex bytes)) ++
                      [(sha256hex bytes, bytes)] }) := by
              simp [add_file, add_file_to_library, hr, hu]
            right
            exact ⟨_, _, heq, rfl, Or.inr ⟨bytes, rfl, hblob⟩⟩
          · have heq : add_file fs file true =
                (Except.ok (sha256hex bytes),
                  FileSys.mk (fs.files.filter fun f => !(f.1 == file))
                    ((fs.library.filter fun f => !(f.1 == sha256hex bytes)) ++
                      [(sha256hex bytes, bytes)])
                    fs.undeletable) := by
              simp [add_file, add_file_to_library, hr, hu]
            left
            refine ⟨sha256hex bytes, _, bytes, heq, rfl, rfl, hblob, ?_, ?_⟩
            · intro _
              simp only [FileSys.read, find?_filter_ne]
              rfl
            · intro h
              simp at h

/-- Witness for C9 applied at stuckFS without source deletion. -/
theorem add_file_atomic_or_reported_witness :
    (∃ digest fs1 bytes,
        add_file stuckFS "src" false = (Except.ok digest, fs1) ∧
        stuckFS.read "src" = some bytes ∧ digest = sha256hex bytes ∧
        fs1.blob digest = some bytes ∧
        (false = true → fs1.read "src" = none) ∧
        (false = false → fs1.files = stuckFS.files)) ∨
    (∃ e fs1,
        add_file stuckFS "src" false = (Except.error e, fs1) ∧
        fs1.files = stuckFS.files ∧
        (fs1 = stuckFS ∨ ∃ bytes, stuckFS.read "src" = some bytes ∧
          fs1.blob (sha256hex bytes) = some bytes)) :=
  add_file_atomic_or_reported stuckFS "src" false

/-- Counterexample to C9 as stated: on stuckFS the copy succeeds but the
removal of the source is refused, so add_file returns an error while the
library no longer equals its prior state. -/
theorem add_file_error_mutates_cex :
    (add_file stuckFS "src" true).1 = Except.error (Error.IOError "remove failed") ∧
    (add_file stuckFS "src" true).2.library ≠ stuckFS.library := by
  decide

/-- C3: on the expected-bad inputs - a meme id with no row, a malformed
search expression - the read and search operations return typed Error
values (the missing row as the engine's no-rows error, the malformed
expression as the compiler's storage error) instead of panicking; the
result is always an Except value, never an aborted computation. -/
theorem expected_bad_inputs_yield_typed_errors (db : DB) (id : Int)
    (hmiss : ∀ m ∈ db.memes, m.id ≠ id) (stmt : String) (e0 : Error)
    (hbad : build_search_terms stmt = Except.error e0) (page : Int) (mode : SearchMode) :
    query_meme_by_id db id = Except.error (Error.SQLiteError RusqliteError.queryReturnedNoRows) ∧
    search_meme_by_stmt db stmt page mode = Except.error e0 := by
  constructor
  · have hfind : db.memes.find? (fun m => m.id == id) = none := by
      apply List.find?_eq_none.mpr
      intro m hm
      simp [hmiss m hm]
    simp [query_meme_by_id, hfind]
  · simp [search_meme_by_stmt, hbad]

/-- Witness for C3: the absent id 99 and the malformed expression of an
empty namespace token. -/
theorem expected_bad_inputs_yield_typed_errors_witness :
    query_meme_by_id sampleDB 99 =
      Except.error (Error.SQLiteError RusqliteError.queryReturnedNoRows) ∧
    search_meme_by_stmt sampleDB ":x" 0 SearchMode.Normal = Except.error malformedExpr :=
  expected_bad_inputs_yield_typed_errors sampleDB 99 (by decide) ":x" malformedExpr
    (by decide) 0 SearchMode.Normal

/-- C2 is refuted by the source: the prepared search statement is executed
through query_map with the empty binding list, so no user-controlled
substring is ever passed as a bound parameter; whatever the expression
contributes to the query travels inside the SQL text. -/
theorem search_executed_with_empty_binding (stmt : String) (page : Int) (mode : SearchMode)
    (q : PreparedQuery) (h : search_prepared stmt page mode = Except.ok q) :
    q.params = [] := by
  unfold search_prepared at h
  cases hb : build_search_sql stmt with
  | error e =>
      rw [hb] at h
      cases h
  | ok sql =>
      rw [hb] at h
      injection h with h1
      rw [← h1]

set_option maxRecDepth 8000 in
/-- Witness for C2's theorem: for the expression artist:alice the executed
statement binds zero parameters while the raw substring alice occurs in
the SQL text. -/
theorem search_executed_with_empty_binding_witness :
    ∃ q, search_prepared "artist:alice" 0 SearchMode.Normal = Except.ok q ∧ q.params = [] ∧
      strContains q.text "alice" = true := by
  refine ⟨_, rfl, search_executed_with_empty_binding "artist:alice" 0 SearchMode.Normal _ rfl, ?_⟩
  decide

/-- Counterexample to C1 as stated over every page number: at page
71582789 the source's i32 product page * 30 wraps to a negative offset,
which the engine treats as zero, so search returns the first rows of the
ordered result while the claimed window - skipping the first page * 30
rows of the full ordered result - is empty. -/
theorem search_offset_wrap_cex :
    search_meme_by_stmt sampleDB "" 71582789 SearchMode.Normal =
      Except.ok [sampleRow2.toMeme, sampleRow.toMeme] ∧
    [sampleRow2.toMeme, sampleRow.toMeme] ≠ ([] : List Meme) ∧
    (((List.insertionSort updateTimeGe (sampleDB.memes.filter fun m =>
        ([] : List SearchTerm).all (evalTerm sampleDB m) &&
          SearchMode.Normal.whereClause m)).drop
      ((71582789 : Int) * 30).toNat).take 30).map MemeRow.toMeme = [] := by
  refine ⟨by decide, by decide, ?_⟩
  rw [List.drop_eq_nil_of_le (by decide)]
  rfl

/-- C1 (amended): for every expression accepted by the compiler and every
page whose i32 offset page * 30 does not overflow, search returns only
rows satisfying the compiled predicate ANDed with the mode's fixed clause,
ordered by update_time descending, at most 30 rows, and exactly the window
that skips the first page*30 rows of the full ordered result; for larger
pages the i32 product wraps. -/
theorem search_meme_by_stmt_spec (db : DB) (stmt : String) (page : Int) (mode : SearchMode)
    (ts : List SearchTerm) (hts : build_search_terms stmt = Except.ok ts) (hpage : 0 ≤ page)
    (hfit : page * 30 < 2 ^ 31) :
    ∃ window : List MemeRow,
      search_meme_by_stmt db stmt page mode = Except.ok (window.map MemeRow.toMeme) ∧
      window.length ≤ 30 ∧
      (∀ m ∈ window, m ∈ db.memes ∧ ts.all (evalTerm db m) = true ∧
        mode.whereClause m = true) ∧
      List.Pairwise updateTimeGe window ∧
      ((((page * 30).toNat : Int) = page * 30 ∧
        window = ((List.insertionSort updateTimeGe (db.memes.filter fun m =>
          ts.all (evalTerm db m) && mode.whereClause m)).drop (page * 30).toNat).take 30)) := by
  have hw : wrap32 (page * 30) = page * 30 :=
    wrap32_eq_self _ (mul_nonneg hpage (by norm_num)) hfit
  refine ⟨((List.insertionSort updateTimeGe (db.memes.filter fun m =>
      ts.all (evalTerm db m) && mode.whereClause m)).drop (page * 30).toNat).take 30,
    ?_, List.length_take_le _ _, ?_, ?_,
    Int.toNat_of_nonneg (mul_nonneg hpage (by norm_num)), rfl⟩
  · simp [search_meme_by_stmt, hts, hw]
  · intro m hm
    have h1 : m ∈ List.insertionSort updateTimeGe (db.memes.filter fun m =>
        ts.all (evalTerm db m) && mode.whereClause m) :=
      List.drop_subset _ _ (List.take_subset _ _ hm)
    have h2 := (List.mem_insertionSort updateTimeGe).mp h1
    have h3 := List.mem_filter.mp h2
    have h4 := Bool.and_eq_true_iff.mp h3.2
    exact ⟨h3.1, h4.1, h4.2⟩
  · exact List.Pairwise.sublist
      ((List.take_sublist _ _).trans (List.drop_sublist _ _))
      (List.sorted_insertionSort updateTimeGe _)

/-- Witness for C1 at sampleDB, expression artist:alice, page 0, mode
Normal. -/
theorem search_meme_by_stmt_spec_witness :
    ∃ window : List MemeRow,
      search_meme_by_stmt sampleDB "artist:alice" 0 SearchMode.Normal =
        Except.ok (window.map MemeRow.toMeme) ∧
      window.length ≤ 30 ∧
      (∀ m ∈ window, m ∈ sampleDB.memes ∧
        ([SearchTerm.tagExact "artist" "alice"].all (evalTerm sampleDB m)) = true ∧
        SearchMode.Normal.whereClause m = true) ∧
      List.Pairwise updateTimeGe window ∧
      (((((0 : Int) * 30).toNat : Int) = (0 : Int) * 30 ∧
        window = ((List.insertionSort updateTimeGe (sampleDB.memes.filter fun m =>
          [SearchTerm.tagExact "artist" "alice"].all (evalTerm sampleDB m) &&
            SearchMode.Normal.whereClause m)).drop ((0 : Int) * 30).toNat).take 30)) :=
  search_meme_by_stmt_spec sampleDB "artist:alice" 0 SearchMode.Normal
    [SearchTerm.tagExact "artist" "alice"] (by decide) (by decide) (by decide)

end MemeDB
